import Mathlib

/-!
Shallow embedding of `pytest_kind/cluster.py` (necaris/pytest-kind).

The embedding models the three stateful routines the specification's claims
are about:

* `KindCluster.port_forward` — the retry loop that launches background
  `kubectl port-forward` processes, probes them, and yields a local port to a
  scoped block.  External effects (process launch/kill) are recorded in an
  event trace; the nondeterministic environment (per-attempt process fate and
  the pseudo-random number stream) is an explicit oracle `PFEnv`.
* `download_to_path` — streaming download to a `.tmp` file followed by a
  rename; the filesystem is a map from path strings to byte lists.
* `KindCluster.create` — the query/create/check-credentials consistency loop;
  the external world (cluster list, credentials-file existence, bootstrapper
  failures) is an oracle `CreateEnv`, and divergence is made observable with a
  fuel parameter.

Machine-level details that the claims do not touch (logging, the pykube API
client construction, `load_docker_image`, binary URL construction) are not
modelled.  Subprocess invocations other than `kind create cluster` are
assumed to succeed (a non-zero exit would propagate as an exception in every
code path alike).
-/

set_option linter.unusedVariables false

namespace PytestKind

/-! ## Port-forward session: data model

One loop attempt launches a process and then observes one of three fates,
matching the branch structure of `port_forward` (cluster.py lines 194-211):
the process exits within the settle second (`proc.poll()` returns a code), or
it is still running and the raw TCP connect to the chosen port fails, or it
is still running and the connect succeeds. -/

/-- Fate of the process launched on one attempt, as observed by the poll and
the TCP connect probe. -/
inductive Outcome
  | exited (code : Int)
  | connectFail
  | connectOk
deriving DecidableEq, Repr

/-- Oracle for one `port_forward` call: `outcome i` is the fate of the
process launched on attempt `i`; `rng i` is the `i`-th value drawn from the
pseudo-random stream (consumed only when no truthy `local_port` is given). -/
structure PFEnv where
  outcome : Nat → Outcome
  rng : Nat → Nat

/-- Externally visible process events of a `port_forward` call.  The process
launched on attempt `i` is identified by `i`. -/
inductive Event
  | launch (pid : Nat) (port : Nat)
  | kill (pid : Nat)
deriving DecidableEq, Repr

/-- Errors that can propagate out of `port_forward` before the yield:
the `raise Exception(f"kubectl port-forward returned exit code ...")` on the
last attempt, the re-raised socket connect error on the last attempt, and the
`UnboundLocalError` from `yield port_to_use` when `retries == 0`. -/
inductive PFError
  | exitCode (code : Int)
  | connectError
  | unboundLocal
deriving DecidableEq, Repr

/-- How the `for i in range(retries)` loop ends: normally (carrying the last
bound values of `port_to_use` and `proc`, `none` when never assigned), or by
raising. -/
inductive LoopExit
  | finished (port : Option Nat) (proc : Option Nat)
  | raised (e : PFError)
deriving DecidableEq, Repr

/-- `random.randrange(lo, hi)`: `lo + d % (hi - lo)` for an arbitrary draw
`d` from the random stream; always in `[lo, hi)` when `lo < hi`. -/
def randrange (lo hi d : Nat) : Nat :=
  lo + d % (hi - lo)

/-- `port_to_use = local_port or random.randrange(5000, 30000)`
(cluster.py line 183).  Python truthiness: `local_port` of `None` *or of 0*
falls through to the random draw. -/
def choosePort (localPort : Option Nat) (d : Nat) : Nat :=
  match localPort with
  | some p => if p = 0 then randrange 5000 30000 d else p
  | none => randrange 5000 30000 d

/-- `if proc: proc.kill()` (cluster.py lines 180-181, 215-216): the kill
event emitted for an optional process handle. -/
def killOf (pr : Option Nat) : List Event :=
  match pr with
  | some q => [Event.kill q]
  | none => []

/-- The trace extension performed at the top of one loop iteration before
the poll (cluster.py lines 180-193): `if proc: proc.kill()`, then the launch
of attempt `i` on the chosen port.  It is the same in every branch of the
iteration, since kill/choose/launch all precede the poll. -/
def attemptTrace (env : PFEnv) (lp : Option Nat) (tr : List Event)
    (pr : Option Nat) (i : Nat) : List Event :=
  tr ++ killOf pr ++ [Event.launch i (choosePort lp (env.rng i))]

/-- The body of `for i in range(retries)` (cluster.py lines 179-211), as
structural recursion on the number of remaining iterations (`fuel`, which is
`retries - i` at every call, so the range test `i < retries` and the
last-iteration test `i >= retries - 1` read exactly as in the source).

State threaded through: `i` the attempt index, `pr` the current process
handle (`proc`), `port` the last bound `port_to_use`, `tr` the event trace so
far.  Each iteration first kills the previous process if any, chooses a
port, launches (together: `attemptTrace`), then branches on the observed
outcome:

* process already exited: on the last attempt raise with the exit code,
  otherwise `continue`;
* connect failed: on the last attempt re-raise the connect error, otherwise
  fall to the next iteration;
* connect succeeded: fall to the next iteration — the source has no `break`,
  so success does not leave the loop early. -/
def pfLoopAux (env : PFEnv) (lp : Option Nat) (retries : Nat) :
    Nat → Nat → Option Nat → Option Nat → List Event → List Event × LoopExit
  | 0, _, pr, port, tr => (tr, LoopExit.finished port pr)
  | fuel + 1, i, pr, port, tr =>
    if i < retries then
      match env.outcome i with
      | Outcome.exited code =>
        if retries - 1 ≤ i then
          (attemptTrace env lp tr pr i, LoopExit.raised (PFError.exitCode code))
        else
          pfLoopAux env lp retries fuel (i + 1) (some i)
            (some (choosePort lp (env.rng i))) (attemptTrace env lp tr pr i)
      | Outcome.connectFail =>
        if retries - 1 ≤ i then
          (attemptTrace env lp tr pr i, LoopExit.raised PFError.connectError)
        else
          pfLoopAux env lp retries fuel (i + 1) (some i)
            (some (choosePort lp (env.rng i))) (attemptTrace env lp tr pr i)
      | Outcome.connectOk =>
        pfLoopAux env lp retries fuel (i + 1) (some i)
          (some (choosePort lp (env.rng i))) (attemptTrace env lp tr pr i)
    else
      (tr, LoopExit.finished port pr)

/-- The whole attempt loop of `port_forward`, started with `proc = None` and
`port_to_use` unbound. -/
def pfLoop (env : PFEnv) (lp : Option Nat) (retries : Nat) :
    List Event × LoopExit :=
  pfLoopAux env lp retries retries 0 none none []

/-- How the caller's scoped block exits once the port has been yielded. -/
inductive BlockExit
  | normal
  | raisedInBlock
deriving DecidableEq, Repr

/-- Result of `with cluster.port_forward(...) as port: block`. -/
inductive PFResult
  | established (port : Nat) (blockExit : BlockExit)
  | setupError (e : PFError)
deriving DecidableEq, Repr

/-- The full `port_forward` context manager (cluster.py lines 167-216)
around a caller block that exits with `be`.  An error raised inside the
attempt loop propagates out of the generator *before* the
`try: yield / finally:` block is entered, so no teardown kill runs on that
path.  Once the loop finished, the `finally:` clause kills the current
process handle (if any) on every exit of the block; if `retries == 0` left
`port_to_use` unbound, evaluating `yield port_to_use` raises inside the
`try`, and the `finally:` still runs (with `proc` still `None`). -/
def port_forward (env : PFEnv) (lp : Option Nat) (retries : Nat)
    (be : BlockExit) : List Event × PFResult :=
  match pfLoop env lp retries with
  | (tr, LoopExit.raised e) => (tr, PFResult.setupError e)
  | (tr, LoopExit.finished none pr) =>
    (tr ++ killOf pr, PFResult.setupError PFError.unboundLocal)
  | (tr, LoopExit.finished (some p) pr) =>
    (tr ++ killOf pr, PFResult.established p be)

/-! ## Port-forward trace predicates -/

/-- The process of attempt `pid` was launched in the trace. -/
def launched (tr : List Event) (pid : Nat) : Bool :=
  tr.any fun e =>
    match e with
    | Event.launch q _ => q = pid
    | _ => false

/-- The process of attempt `pid` received a kill in the trace. -/
def killed (tr : List Event) (pid : Nat) : Bool :=
  tr.any fun e =>
    match e with
    | Event.kill q => q = pid
    | _ => false

/-- The process of attempt `pid` is still running after the trace: it was
launched, did not exit by itself, and was never killed.  (Each process is
launched once, and every kill of it occurs after its launch, so membership
suffices.) -/
def runningAfter (env : PFEnv) (tr : List Event) (pid : Nat) : Bool :=
  launched tr pid && !killed tr pid &&
    (match env.outcome pid with
     | Outcome.exited _ => false
     | _ => true)

/-- Number of processes launched in the trace. -/
def launchCount (tr : List Event) : Nat :=
  (tr.filter fun e =>
    match e with
    | Event.launch _ _ => true
    | _ => false).length

/-! ## Port-forward loop characterization

The loop raises only on the last attempt, so every attempt `0..retries-1` is
executed; the trace and the exit have a closed form. -/

/-- Events contributed by iterations `i, i+1, ...` (with `fuel` of them
remaining): launch `i`, then — if another iteration follows — the kill of
`i` at the top of iteration `i+1`, and so on. -/
def traceFrom (env : PFEnv) (lp : Option Nat) : Nat → Nat → List Event
  | 0, _ => []
  | fuel + 1, i =>
    Event.launch i (choosePort lp (env.rng i)) ::
      (if fuel = 0 then []
       else Event.kill i :: traceFrom env lp fuel (i + 1))

/-- The loop's exit is decided by the outcome of the final attempt alone. -/
def finalExit (env : PFEnv) (lp : Option Nat) (retries : Nat) : LoopExit :=
  match env.outcome (retries - 1) with
  | Outcome.exited code => LoopExit.raised (PFError.exitCode code)
  | Outcome.connectFail => LoopExit.raised PFError.connectError
  | Outcome.connectOk =>
    LoopExit.finished (some (choosePort lp (env.rng (retries - 1))))
      (some (retries - 1))

theorem pfLoopAux_eq (env : PFEnv) (lp : Option Nat) (retries : Nat) :
    ∀ fuel i pr port tr, i + fuel = retries → i < retries →
      pfLoopAux env lp retries fuel i pr port tr =
        (tr ++ killOf pr ++ traceFrom env lp fuel i,
          finalExit env lp retries) := by
  intro fuel
  induction fuel with
  | zero => intro i pr port tr hfuel hi; omega
  | succ fuel ih =>
    intro i pr port tr hfuel hi
    rw [pfLoopAux, if_pos hi]
    rcases Nat.eq_zero_or_pos fuel with hf0 | hfpos
    · subst hf0
      have hlast : retries - 1 ≤ i := by omega
      have hieq : retries - 1 = i := by omega
      cases hout : env.outcome i
      case exited code =>
        exact (if_pos hlast).trans
          (by simp [attemptTrace, traceFrom, finalExit, hieq, hout,
            List.append_assoc])
      case connectFail =>
        exact (if_pos hlast).trans
          (by simp [attemptTrace, traceFrom, finalExit, hieq, hout,
            List.append_assoc])
      case connectOk =>
        simp [pfLoopAux, attemptTrace, traceFrom, finalExit, hieq, hout,
          List.append_assoc]
    · have hnotlast : ¬ retries - 1 ≤ i := by omega
      have hfne : fuel ≠ 0 := by omega
      have hrec := ih (i + 1) (some i)
        (some (choosePort lp (env.rng i)))
        (attemptTrace env lp tr pr i)
        (by omega) (by omega)
      cases hout : env.outcome i
      case exited code =>
        exact (if_neg hnotlast).trans (hrec.trans
          (by simp [attemptTrace, traceFrom, killOf, hfne, List.append_assoc]))
      case connectFail =>
        exact (if_neg hnotlast).trans (hrec.trans
          (by simp [attemptTrace, traceFrom, killOf, hfne, List.append_assoc]))
      case connectOk =>
        exact hrec.trans
          (by simp [attemptTrace, traceFrom, killOf, hfne, List.append_assoc])

/-- Closed form of the whole attempt loop, for `retries ≥ 1`. -/
theorem pfLoop_eq (env : PFEnv) (lp : Option Nat) (retries : Nat)
    (h : 1 ≤ retries) :
    pfLoop env lp retries =
      (traceFrom env lp retries 0, finalExit env lp retries) := by
  have := pfLoopAux_eq env lp retries retries 0 none none [] (by omega) (by omega)
  simpa [pfLoop, killOf] using this

/-- The loop trace for any `retries` (also `0`, where it is empty). -/
theorem pfLoop_fst (env : PFEnv) (lp : Option Nat) (retries : Nat) :
    (pfLoop env lp retries).1 = traceFrom env lp retries 0 := by
  rcases Nat.eq_zero_or_pos retries with h0 | hpos
  · subst h0; simp [pfLoop, pfLoopAux, traceFrom]
  · rw [pfLoop_eq env lp retries hpos]

theorem launchCount_append (a b : List Event) :
    launchCount (a ++ b) = launchCount a + launchCount b := by
  simp [launchCount, List.filter_append]

/-- `traceFrom` launches one process per remaining iteration. -/
theorem traceFrom_launchCount (env : PFEnv) (lp : Option Nat) :
    ∀ fuel i, launchCount (traceFrom env lp fuel i) = fuel := by
  intro fuel
  induction fuel with
  | zero => intro i; simp [traceFrom, launchCount]
  | succ fuel ih =>
    intro i
    rcases Nat.eq_zero_or_pos fuel with h0 | hpos
    · subst h0; simp [traceFrom, launchCount]
    · have hne : fuel ≠ 0 := by omega
      simp [traceFrom, hne, launchCount, List.filter_cons]
      have := ih (i + 1)
      simp [launchCount] at this
      omega

/-- Every launch in `traceFrom` uses the port chosen by
`local_port or random.randrange(5000, 30000)` for its own attempt index. -/
theorem traceFrom_launch_port (env : PFEnv) (lp : Option Nat) :
    ∀ fuel i j q, Event.launch j q ∈ traceFrom env lp fuel i →
      q = choosePort lp (env.rng j) := by
  intro fuel
  induction fuel with
  | zero => intro i j q h; simp [traceFrom] at h
  | succ fuel ih =>
    intro i j q h
    rcases Nat.eq_zero_or_pos fuel with h0 | hpos
    · subst h0
      simp [traceFrom] at h
      rcases h with ⟨hj, hq⟩
      subst hj; subst hq; rfl
    · have hne : fuel ≠ 0 := by omega
      simp [traceFrom, hne] at h
      rcases h with ⟨hj, hq⟩ | h
      · subst hj; subst hq; rfl
      · exact ih (i + 1) j q h

/-- In `traceFrom`, the kill of attempt `j` and the launch of attempt
`j + 1` are adjacent events, in that order: the previous process is killed
at the top of the next iteration, immediately before the next launch. -/
theorem traceFrom_adjacent (env : PFEnv) (lp : Option Nat) :
    ∀ fuel i j, i ≤ j → j + 1 < i + fuel →
      ∃ l₁ l₂, traceFrom env lp fuel i =
        l₁ ++ Event.kill j ::
          Event.launch (j + 1) (choosePort lp (env.rng (j + 1))) :: l₂ := by
  intro fuel
  induction fuel with
  | zero => intro i j h1 h2; omega
  | succ fuel ih =>
    intro i j h1 h2
    have hne : fuel ≠ 0 := by omega
    rcases Nat.lt_or_ge i j with hij | hij
    · obtain ⟨l₁, l₂, heq⟩ := ih (i + 1) j (by omega) (by omega)
      refine ⟨Event.launch i (choosePort lp (env.rng i)) :: Event.kill i :: l₁,
        l₂, ?_⟩
      rw [traceFrom, if_neg hne, heq]
      simp
    · have hij2 : i = j := by omega
      subst hij2
      obtain ⟨fuel2, rfl⟩ : ∃ f, fuel = f + 1 := ⟨fuel - 1, by omega⟩
      refine ⟨[Event.launch i (choosePort lp (env.rng i))],
        (if fuel2 = 0 then []
         else Event.kill (i + 1) :: traceFrom env lp fuel2 (i + 1 + 1)), ?_⟩
      rw [traceFrom, if_neg hne, traceFrom]
      simp

/-- Every launch in the loop trace uses the port chosen for its attempt. -/
theorem pfLoop_launch_port (env : PFEnv) (lp : Option Nat) (retries j q : Nat)
    (h : Event.launch j q ∈ (pfLoop env lp retries).1) :
    q = choosePort lp (env.rng j) := by
  rw [pfLoop_fst] at h
  exact traceFrom_launch_port env lp retries 0 j q h

/-! ## Concrete environments used by counterexamples and witnesses -/

/-- Every attempt's process stays up and accepts the connect; the random
stream is `0, 1, 2, ...` (so attempt `i` draws port `5000 + i`). -/
def envOkId : PFEnv := ⟨fun _ => Outcome.connectOk, fun i => i⟩

/-- Every attempt's process stays up but the TCP connect always fails (a
target that never becomes ready, e.g. connection refused). -/
def envNeverReady : PFEnv := ⟨fun _ => Outcome.connectFail, fun _ => 0⟩

/-- Attempt 0's connect fails; later attempts succeed. -/
def envCF0 : PFEnv :=
  ⟨fun i => if i = 0 then Outcome.connectFail else Outcome.connectOk, fun i => i⟩

/-- Attempt 0's process exits with code 1; later attempts succeed; the
random stream is constantly `0`. -/
def envExit0 : PFEnv :=
  ⟨fun i => if i = 0 then Outcome.exited 1 else Outcome.connectOk, fun _ => 0⟩

/-- Every attempt's process exits with code 7. -/
def envExitAll : PFEnv := ⟨fun _ => Outcome.exited 7, fun _ => 0⟩

/-- Process always connectable; the random stream is constantly `123`. -/
def envRand : PFEnv := ⟨fun _ => Outcome.connectOk, fun _ => 123⟩

/-! ## C1 — connect success and loop termination -/

/-- C1 (counterexample): with `retries = 2` and every process connectable,
attempt 0's process is running and its connect succeeds, yet the loop
launches attempt 1 (after killing attempt 0's process) and the session is
established with attempt 1's port `5001`, not attempt 0's port `5000`.  The
source loop has no `break`, so a successful connect on a non-final attempt
does not terminate the attempt loop. -/
theorem port_forward_success_still_relaunches_cex :
    envOkId.outcome 0 = Outcome.connectOk ∧
    launched (pfLoop envOkId none 2).1 1 = true ∧
    (pfLoop envOkId none 2).1 =
      [Event.launch 0 5000, Event.kill 0, Event.launch 1 5001] ∧
    (pfLoop envOkId none 2).2 = LoopExit.finished (some 5001) (some 1) := by
  decide

/-- C1 (amended): the attempt loop always performs all `retries` launches —
a successful connect does not stop it early — and only the final attempt's
outcome decides the result: when the final attempt's connect succeeds, the
session is established with the final attempt's port and process. -/
theorem port_forward_no_break_runs_all_attempts (env : PFEnv)
    (lp : Option Nat) (retries : Nat) (h : 1 ≤ retries) :
    launchCount (pfLoop env lp retries).1 = retries ∧
    (env.outcome (retries - 1) = Outcome.connectOk →
      (pfLoop env lp retries).2 =
        LoopExit.finished (some (choosePort lp (env.rng (retries - 1))))
          (some (retries - 1))) := by
  rw [pfLoop_eq env lp retries h]
  refine ⟨traceFrom_launchCount env lp retries 0, fun hout => ?_⟩
  simp [finalExit, hout]

theorem port_forward_no_break_runs_all_attempts_witness :
    launchCount (pfLoop envOkId none 2).1 = 2 ∧
    (pfLoop envOkId none 2).2 = LoopExit.finished (some 5001) (some 1) := by
  have h := port_forward_no_break_runs_all_attempts envOkId none 2 (by decide)
  exact ⟨h.1, (h.2 (by decide)).trans (by decide)⟩

/-! ## C2 — never-ready target: error after `retries` attempts, leaked
process -/

/-- C2 (code bug): with `retries = 1` against a target whose process stays
up but never accepts the connect, `port_forward` raises the connect error
after exactly one attempt — but the raise happens before the
`try: yield / finally:` block is entered, so attempt 0's still-running
process receives no kill: it is still running when the error propagates.
The spec requires that no background process be left running. -/
theorem port_forward_last_connectFail_leaks_process :
    port_forward envNeverReady none 1 BlockExit.normal =
      ([Event.launch 0 5000], PFResult.setupError PFError.connectError) ∧
    launchCount (port_forward envNeverReady none 1 BlockExit.normal).1 = 1 ∧
    runningAfter envNeverReady
      (port_forward envNeverReady none 1 BlockExit.normal).1 0 = true := by
  decide

/-! ## C3 — teardown kills the process on every exit of the scoped block -/

/-- C3: once the attempt loop has finished and a port is yielded, the
`finally:` clause kills the current background process on every exit of the
caller's block — both normal completion (which subsumes early return) and a
raised exception — and there is no exit path that skips the kill: the
result trace always ends with the kill of the yielded process. -/
theorem port_forward_teardown_kills_on_every_exit (env : PFEnv)
    (lp : Option Nat) (retries : Nat) (be : BlockExit) (p : Nat)
    (pr : Option Nat)
    (h : (pfLoop env lp retries).2 = LoopExit.finished (some p) pr) :
    ∃ pid, pr = some pid ∧
      port_forward env lp retries be =
        ((pfLoop env lp retries).1 ++ [Event.kill pid],
          PFResult.established p be) ∧
      killed (port_forward env lp retries be).1 pid = true := by
  rcases Nat.eq_zero_or_pos retries with h0 | hpos
  · subst h0
    have : pfLoop env lp 0 = ([], LoopExit.finished none none) := rfl
    rw [this] at h
    simp at h
  · rw [pfLoop_eq env lp retries hpos] at h
    simp only [finalExit] at h
    cases hout : env.outcome (retries - 1) <;> rw [hout] at h
    case exited code => simp at h
    case connectFail => simp at h
    case connectOk =>
      simp only [LoopExit.finished.injEq, Option.some.injEq] at h
      obtain ⟨hp, hpr⟩ := h
      refine ⟨retries - 1, hpr.symm, ?_, ?_⟩
      · rw [port_forward, pfLoop_eq env lp retries hpos]
        simp only [finalExit, hout]
        simp [killOf, hp]
      · rw [port_forward, pfLoop_eq env lp retries hpos]
        simp only [finalExit, hout]
        simp [killOf, killed, List.any_append]

theorem port_forward_teardown_kills_on_every_exit_witness :
    port_forward envOkId none 1 BlockExit.raisedInBlock =
      ([Event.launch 0 5000, Event.kill 0],
        PFResult.established 5000 BlockExit.raisedInBlock) ∧
    killed (port_forward envOkId none 1 BlockExit.raisedInBlock).1 0 = true := by
  obtain ⟨pid, hpid, heq, hk⟩ :=
    port_forward_teardown_kills_on_every_exit envOkId none 1
      BlockExit.raisedInBlock 5000 (some 0) (by decide)
  have hpid0 : pid = 0 := by
    injection hpid with h2
    exact h2.symm
  subst hpid0
  exact ⟨heq.trans (by decide), hk⟩

/-! ## C4 — connect failure on a non-final attempt and the fate of its
process -/

/-- C4 (counterexample): `retries = 2`, attempt 0's process stays up but
its connect fails.  The claim says the loop proceeds to attempt 1 *without*
killing attempt 0's still-running process before the next launch; the trace
shows `kill 0` strictly before `launch 1`: the `if proc: proc.kill()` at
the top of the next iteration kills it before the next launch. -/
theorem port_forward_connectFail_kill_before_next_launch_cex :
    envCF0.outcome 0 = Outcome.connectFail ∧
    (pfLoop envCF0 none 2).1 =
      [Event.launch 0 5000, Event.kill 0, Event.launch 1 5001] := by
  decide

/-- C4 (amended): when the connect fails on a non-final attempt `i`, the
loop does proceed to attempt `i + 1`, but attempt `i`'s still-running
process is killed at the top of the next iteration, immediately before the
next launch: `kill i` and `launch (i+1)` are adjacent in the trace, in that
order. -/
theorem port_forward_connectFail_prev_killed_next_iteration (env : PFEnv)
    (lp : Option Nat) (retries i : Nat)
    (h1 : env.outcome i = Outcome.connectFail) (h2 : i + 1 < retries) :
    ∃ l₁ l₂, (pfLoop env lp retries).1 =
      l₁ ++ Event.kill i ::
        Event.launch (i + 1) (choosePort lp (env.rng (i + 1))) :: l₂ := by
  rw [pfLoop_fst]
  exact traceFrom_adjacent env lp retries 0 i (by omega) (by omega)

theorem port_forward_connectFail_prev_killed_next_iteration_witness :
    ∃ l₁ l₂, (pfLoop envCF0 none 2).1 =
      l₁ ++ Event.kill 0 ::
        Event.launch 1 (choosePort none (envCF0.rng 1)) :: l₂ :=
  port_forward_connectFail_prev_killed_next_iteration envCF0 none 2 0
    (by decide) (by decide)

/-! ## C8 — process-exited branch -/

/-- C8 (counterexample): the caller supplies `local_port = 0` and attempt
0's process exits immediately.  The claim's "new random port *unless a
fixed local_port was given*" implies the retry reuses the given port `0`;
but `local_port or random.randrange(...)` treats `0` as falsy, so the retry
(attempt 1) launches on the random draw `5000`, not on the supplied `0`. -/
theorem port_forward_exited_retry_port_zero_cex :
    envExit0.outcome 0 = Outcome.exited 1 ∧
    (pfLoop envExit0 (some 0) 2).1 =
      [Event.launch 0 5000, Event.kill 0, Event.launch 1 5000] ∧
    ¬ launched (pfLoop envExit0 (some 0) 2).1 0 = false ∧
    (5000 : Nat) ≠ 0 := by
  decide

/-- C8 (amended): when the poll shows the process of attempt `i` already
exited: if that was the last allowed attempt the call fails with the error
carrying that exit code; on an earlier attempt the stale process handle is
killed at the top of the next iteration, immediately before a new launch
whose port is chosen afresh — the `i+1`-th random draw when no local port
was given, and the caller's port only when it is nonzero. -/
theorem port_forward_exited_branch (env : PFEnv) (lp : Option Nat)
    (retries i : Nat) (c : Int) (h1 : env.outcome i = Outcome.exited c) :
    (i + 1 = retries →
      (pfLoop env lp retries).2 = LoopExit.raised (PFError.exitCode c)) ∧
    (i + 1 < retries →
      ∃ l₁ l₂, (pfLoop env lp retries).1 =
        l₁ ++ Event.kill i ::
          Event.launch (i + 1) (choosePort lp (env.rng (i + 1))) :: l₂) ∧
    (∀ p, lp = some p → p ≠ 0 → choosePort lp (env.rng (i + 1)) = p) ∧
    (lp = none →
      choosePort lp (env.rng (i + 1)) =
        randrange 5000 30000 (env.rng (i + 1))) := by
  refine ⟨fun hlast => ?_, fun hnot => ?_, fun p hp hp0 => ?_, fun hn => ?_⟩
  · have hpos : 1 ≤ retries := by omega
    rw [pfLoop_eq env lp retries hpos]
    have : retries - 1 = i := by omega
    simp [finalExit, this, h1]
  · rw [pfLoop_fst]
    exact traceFrom_adjacent env lp retries 0 i (by omega) (by omega)
  · subst hp; simp [choosePort, hp0]
  · subst hn; simp [choosePort]

theorem port_forward_exited_branch_witness :
    (pfLoop envExitAll none 1).2 = LoopExit.raised (PFError.exitCode 7) ∧
    (∃ l₁ l₂, (pfLoop envExit0 none 2).1 =
      l₁ ++ Event.kill 0 ::
        Event.launch 1 (choosePort none (envExit0.rng 1)) :: l₂) := by
  refine ⟨(port_forward_exited_branch envExitAll none 1 0 7 (by decide)).1
    (by decide), ?_⟩
  exact (port_forward_exited_branch envExit0 none 2 0 1 (by decide)).2.1
    (by decide)

/-! ## C9 — port selection -/

/-- C9 (counterexample): the caller supplies `local_port = 0`; the claim
says the given port is used on every attempt, but Python's
`local_port or random.randrange(5000, 30000)` treats `0` as falsy: the
single attempt launches on the random draw `5123`, not on `0`. -/
theorem port_forward_local_port_zero_cex :
    (pfLoop envRand (some 0) 1).1 = [Event.launch 0 5123] ∧
    choosePort (some 0) 123 = 5123 ∧ (5123 : Nat) ≠ 0 := by
  decide

/-- C9 (amended): a caller-supplied *nonzero* `local_port` is used on every
attempt (a supplied `0` is treated as absent); with no local port, every
attempt `j` launches on its own fresh pseudo-random draw
`5000 + rng j % 25000`, which always lies in `[5000, 30000)`. -/
theorem port_forward_port_selection (env : PFEnv) (lp : Option Nat)
    (retries : Nat) :
    (∀ p, lp = some p → p ≠ 0 →
      ∀ j q, Event.launch j q ∈ (pfLoop env lp retries).1 → q = p) ∧
    (lp = none →
      ∀ j q, Event.launch j q ∈ (pfLoop env lp retries).1 →
        q = randrange 5000 30000 (env.rng j) ∧ 5000 ≤ q ∧ q < 30000) := by
  constructor
  · intro p hp hp0 j q hmem
    have := pfLoop_launch_port env lp retries j q hmem
    subst hp
    simpa [choosePort, hp0] using this
  · intro hn j q hmem
    have := pfLoop_launch_port env lp retries j q hmem
    subst hn
    simp only [choosePort] at this
    refine ⟨this, ?_, ?_⟩
    · simp [this, randrange]
    · have : env.rng j % 25000 < 25000 := Nat.mod_lt _ (by omega)
      simp only [randrange] at *
      omega

theorem port_forward_port_selection_witness :
    (5123 : Nat) = randrange 5000 30000 (envRand.rng 0) ∧
    5000 ≤ 5123 ∧ (5123 : Nat) < 30000 :=
  (port_forward_port_selection envRand none 1).2 rfl 0 5123 (by decide)

/-! ## Binary download: `download_to_path` (cluster.py lines 22-32)

The filesystem is a map from path strings to file contents (byte lists);
`chmod` touches only metadata and is not modelled.  The HTTP side is modelled
by `requests`' documented behaviour: `requests.get` may raise (network
failure), `raise_for_status` raises `HTTPError` exactly for 4xx/5xx
responses, and the chunk stream of `iter_content` may abort partway. -/

/-- One item produced by `r.iter_content(chunk_size=8192)`: a byte chunk
(possibly empty), or the point where the transfer aborts. -/
inductive StreamItem
  | chunk (bytes : List Nat)
  | streamError
deriving DecidableEq, Repr

/-- An HTTP response: final status code and the body chunk stream. -/
structure Response where
  status : Nat
  items : List StreamItem
deriving DecidableEq, Repr

/-- `requests.Response.raise_for_status` raises `HTTPError` iff the status
is a 4xx client error or 5xx server error — not for every non-2xx status. -/
def raise_for_status (status : Nat) : Bool :=
  400 ≤ status && status < 600

/-- A filesystem: contents (byte list) per path, `none` when absent. -/
abbrev FS : Type := String → Option (List Nat)

def fsUpdate (fs : FS) (p : String) (v : Option (List Nat)) : FS :=
  fun q => if q = p then v else fs q

/-- Split a path's character list into (directory part with trailing slash,
final component). -/
def splitAtLastSlash (cs : List Char) : List Char × List Char :=
  let revName := cs.reverse.takeWhile fun c => c ≠ '/'
  (cs.take (cs.length - revName.length), revName.reverse)

/-- Length of the final component's suffix per `pathlib`: the part from the
last dot `i`, but only when `0 < i < len(name) - 1` (so a leading dot or a
trailing dot yields no suffix). -/
def pySuffixLen (name : List Char) : Nat :=
  let revTail := name.reverse.takeWhile fun c => c ≠ '.'
  if revTail.length = name.length then 0
  else if 0 < name.length - revTail.length - 1 ∧ 1 ≤ revTail.length then
    revTail.length + 1
  else 0

/-- `path.with_suffix(".tmp")`: drop the final component's suffix (if any)
and append `.tmp`. -/
def withSuffixTmp (p : String) : String :=
  let cs := p.toList
  let dir := (splitAtLastSlash cs).1
  let name := (splitAtLastSlash cs).2
  let stem := name.take (name.length - pySuffixLen name)
  String.mk (dir ++ stem ++ ".tmp".toList)

/-- `for chunk in r.iter_content(chunk_size=8192): if chunk: fd.write(chunk)`
— returns the bytes written so far and whether the stream completed. -/
def writeChunks (content : List Nat) : List StreamItem → List Nat × Bool
  | [] => (content, true)
  | StreamItem.chunk b :: rest =>
    if b = [] then writeChunks content rest
    else writeChunks (content ++ b) rest
  | StreamItem.streamError :: _ => (content, false)

inductive DownloadOutcome
  | ok
  | httpError (status : Nat)
  | netError
deriving DecidableEq, Repr

/-- `download_to_path(url, path, umask)`: stream the response body to
`path.with_suffix(".tmp")`, then `chmod` (metadata, unmodelled) and rename
the temp file onto `path`.  `resp = none` models `requests.get` itself
raising; a 4xx/5xx status makes `raise_for_status` raise before the temp
file is even opened; a stream abort leaves the partial bytes at the temp
path (the `with ... open` closes the file) and raises; otherwise the fully
written temp file is renamed onto the final path. -/
def download_to_path (resp : Option Response) (path : String)
    (umask : Option Nat) (fs : FS) : FS × DownloadOutcome :=
  match resp with
  | none => (fs, DownloadOutcome.netError)
  | some r =>
    if raise_for_status r.status then
      (fs, DownloadOutcome.httpError r.status)
    else
      match writeChunks [] r.items with
      | (written, false) =>
        (fsUpdate fs (withSuffixTmp path) (some written),
          DownloadOutcome.netError)
      | (written, true) =>
        (fsUpdate (fsUpdate (fsUpdate fs (withSuffixTmp path) (some written))
            (withSuffixTmp path) none) path (some written),
          DownloadOutcome.ok)

/-! ## C5 — download failure atomicity -/

/-- Empty filesystem. -/
def fsEmpty : FS := fun _ => none

/-- Filesystem holding a prior file at `x.tmp`. -/
def fsPrior : FS := fun q => if q = "x.tmp" then some [9, 9] else none

/-- A successful 200 response streaming bytes `[1, 2]`, `[]`, `[3]`. -/
def respOk : Response :=
  ⟨200, [StreamItem.chunk [1, 2], StreamItem.chunk [], StreamItem.chunk [3]]⟩

/-- C5 (counterexample): two concrete violations of the claim as stated.
(a) A final non-2xx status that is not 4xx/5xx (here 300) does *not* raise:
`raise_for_status` only raises for 4xx/5xx, so the (empty) body is streamed
and renamed onto the final path — no error, and the final path changes.
(b) When the final path's name already has suffix `.tmp` (here `x.tmp`),
`path.with_suffix(".tmp")` *is* the final path, so an interrupted transfer
overwrites the prior contents of the final path with the partial bytes. -/
theorem download_to_path_claim_cex :
    ((download_to_path (some ⟨300, []⟩) "kind-v0.23.0" (some 493) fsEmpty).2 =
        DownloadOutcome.ok ∧
      (download_to_path (some ⟨300, []⟩) "kind-v0.23.0" (some 493)
          fsEmpty).1 "kind-v0.23.0" = some [] ∧
      fsEmpty "kind-v0.23.0" = none) ∧
    (withSuffixTmp "x.tmp" = "x.tmp" ∧
      (download_to_path
          (some ⟨200, [StreamItem.chunk [1], StreamItem.streamError]⟩)
          "x.tmp" (some 493) fsPrior).2 = DownloadOutcome.netError ∧
      (download_to_path
          (some ⟨200, [StreamItem.chunk [1], StreamItem.streamError]⟩)
          "x.tmp" (some 493) fsPrior).1 "x.tmp" = some [1] ∧
      fsPrior "x.tmp" = some [9, 9]) := by
  decide

/-- C5 (amended): for every download whose final path's name does not
already carry the suffix `.tmp`: a request failure or a 4xx/5xx status or a
stream abort raises an error and leaves the final path exactly as it was
(absent if absent, prior contents untouched), and the downloaded bytes
reach the final path only via the rename of the fully written temp file: on
success the final path holds precisely the concatenated stream and the temp
file is gone. -/
theorem download_to_path_atomicity (resp : Option Response) (path : String)
    (um : Option Nat) (fs : FS) (hpath : withSuffixTmp path ≠ path) :
    ((download_to_path resp path um fs).2 ≠ DownloadOutcome.ok →
      (download_to_path resp path um fs).1 path = fs path) ∧
    (resp = none →
      (download_to_path resp path um fs).2 = DownloadOutcome.netError) ∧
    (∀ r, resp = some r → raise_for_status r.status = true →
      (download_to_path resp path um fs).2 =
        DownloadOutcome.httpError r.status) ∧
    (∀ r, resp = some r → raise_for_status r.status = false →
      (writeChunks [] r.items).2 = false →
      (download_to_path resp path um fs).2 = DownloadOutcome.netError) ∧
    (∀ r, resp = some r → (download_to_path resp path um fs).2 =
        DownloadOutcome.ok →
      (download_to_path resp path um fs).1 path =
          some (writeChunks [] r.items).1 ∧
      (download_to_path resp path um fs).1 (withSuffixTmp path) = none) := by
  refine ⟨?_, ?_, ?_, ?_, ?_⟩
  · intro hne
    rcases resp with _ | r
    · rfl
    · by_cases hst : raise_for_status r.status
      · simp [download_to_path, hst]
      · rcases hw : writeChunks [] r.items with ⟨written, ok⟩
        cases ok
        · simp [download_to_path, hst, hw, fsUpdate, hpath, Ne.symm hpath]
        · exfalso
          apply hne
          simp [download_to_path, hst, hw]
  · intro h; subst h; rfl
  · intro r hr hst; subst hr; simp [download_to_path, hst]
  · intro r hr hst hw
    subst hr
    rcases hw2 : writeChunks [] r.items with ⟨written, ok⟩
    rw [hw2] at hw
    simp at hw
    subst hw
    simp [download_to_path, hst, hw2]
  · intro r hr hok
    subst hr
    by_cases hst : raise_for_status r.status
    · simp [download_to_path, hst] at hok
    · rcases hw : writeChunks [] r.items with ⟨written, ok⟩
      cases ok
      · simp [download_to_path, hst, hw] at hok
      · constructor
        · simp [download_to_path, hst, hw, fsUpdate]
        · simp [download_to_path, hst, hw, fsUpdate, hpath]

theorem download_to_path_atomicity_witness :
    (download_to_path (some respOk) "kind-v0.23.0" (some 493) fsEmpty).1
        "kind-v0.23.0" = some (writeChunks [] respOk.items).1 ∧
    (download_to_path (some respOk) "kind-v0.23.0" (some 493) fsEmpty).1
        (withSuffixTmp "kind-v0.23.0") = none := by
  exact (download_to_path_atomicity (some respOk) "kind-v0.23.0" (some 493)
    fsEmpty (by decide)).2.2.2.2 respOk rfl (by decide)

/-! ## Cluster creation: the `while not cluster_exists` loop
(cluster.py lines 105-138)

Per iteration `k` the external world supplies: the lines of
`kind get clusters` output (`clusters k`), whether
`self.kubeconfig_path.exists()` holds at the consistency check
(`credsAfter k`), and whether an invoked `kind create cluster` exits
non-zero (`createFails k`, which propagates as an exception via
`check=True`).  `kind get clusters` and `kind delete cluster` are assumed
to succeed — a failure there would propagate identically in every branch.
The Python loop has no bound; divergence is made observable by a fuel
parameter: `fuelOut` means the loop was still running after `fuel`
iterations, for every `fuel`. -/

structure CreateEnv where
  clusters : Nat → List String
  credsAfter : Nat → Bool
  createFails : Nat → Bool

/-- Externally visible commands issued by `create`'s loop. -/
inductive CEvent
  | getClusters
  | createCmd
  | deleteCmd
deriving DecidableEq, Repr

inductive CreateExit
  | done
  | fuelOut
  | createError
deriving DecidableEq, Repr

/-- One pass of the loop body: query the cluster list; if the name is not
present as a line, invoke `kind create cluster` (which may raise via
`check=True`); then, if the credentials file does not exist, delete the
cluster and go around again. -/
def createLoop (env : CreateEnv) (name : String) :
    Nat → Nat → List CEvent → List CEvent × CreateExit
  | 0, _, tr => (tr, CreateExit.fuelOut)
  | fuel + 1, k, tr =>
    if (env.clusters k).any (fun line => line == name) then
      if env.credsAfter k then
        (tr ++ [CEvent.getClusters], CreateExit.done)
      else
        createLoop env name fuel (k + 1)
          (tr ++ [CEvent.getClusters, CEvent.deleteCmd])
    else
      if env.createFails k then
        (tr ++ [CEvent.getClusters, CEvent.createCmd], CreateExit.createError)
      else if env.credsAfter k then
        (tr ++ [CEvent.getClusters, CEvent.createCmd], CreateExit.done)
      else
        createLoop env name fuel (k + 1)
          (tr ++ [CEvent.getClusters, CEvent.createCmd, CEvent.deleteCmd])

/-- A whole `create` call (the loop started at iteration 0 with an empty
trace). -/
def createRun (env : CreateEnv) (name : String) (fuel : Nat) :
    List CEvent × CreateExit :=
  createLoop env name fuel 0 []

/-- `name == self.name` for some line of the `get clusters` output — the
reuse test `for name in out.splitlines(): if name == self.name`. -/
def iterFound (env : CreateEnv) (name : String) (k : Nat) : Bool :=
  (env.clusters k).any fun line => line == name

/-- The commands issued during iteration `k` of the loop. -/
def iterEvents (env : CreateEnv) (name : String) (k : Nat) : List CEvent :=
  [CEvent.getClusters] ++
    (if iterFound env name k then [] else [CEvent.createCmd]) ++
    (if !iterFound env name k && env.createFails k then []
     else if env.credsAfter k then [] else [CEvent.deleteCmd])

/-- Whether iteration `k` is the loop's last (it ends by `done` or by the
propagated create failure). -/
def iterStop (env : CreateEnv) (name : String) (k : Nat) : Bool :=
  (!iterFound env name k && env.createFails k) || env.credsAfter k

def iterExit (env : CreateEnv) (name : String) (k : Nat) : CreateExit :=
  if !iterFound env name k && env.createFails k then CreateExit.createError
  else CreateExit.done

/-- One-step characterization of the loop in terms of the per-iteration
commands. -/
theorem createLoop_succ (env : CreateEnv) (name : String) (fuel k : Nat)
    (tr : List CEvent) :
    createLoop env name (fuel + 1) k tr =
      if iterStop env name k then
        (tr ++ iterEvents env name k, iterExit env name k)
      else
        createLoop env name fuel (k + 1) (tr ++ iterEvents env name k) := by
  rw [createLoop]
  cases hf : (env.clusters k).any (fun line => line == name) <;>
    cases hcf : env.createFails k <;>
      cases hc : env.credsAfter k <;>
        simp [iterStop, iterEvents, iterExit, iterFound, hf, hcf, hc]

/-! ## C6 — the consistency-repair loop has no upper bound -/

/-- C6: over any environment whose create invocations all return (no
non-zero exit): (1) whenever the credentials file does not exist after the
attempt of iteration `k`, `delete` is invoked in that iteration and the
whole sequence is retried at iteration `k + 1`; (2) if the credentials file
never exists, the loop is still running after `fuel` iterations for *every*
`fuel` — it runs forever, with no upper bound; (3) the loop terminates
normally only if the credentials file exists after some attempt. -/
theorem create_repair_loop_unbounded (env : CreateEnv) (name : String)
    (hcf : ∀ k, env.createFails k = false) :
    (∀ fuel k tr, env.credsAfter k = false →
      createLoop env name (fuel + 1) k tr =
        createLoop env name fuel (k + 1) (tr ++ iterEvents env name k) ∧
      CEvent.deleteCmd ∈ iterEvents env name k) ∧
    ((∀ k, env.credsAfter k = false) →
      ∀ fuel k tr, (createLoop env name fuel k tr).2 = CreateExit.fuelOut) ∧
    (∀ fuel k tr, (createLoop env name fuel k tr).2 = CreateExit.done →
      ∃ j, env.credsAfter j = true) := by
  refine ⟨?_, ?_, ?_⟩
  · intro fuel k tr hcreds
    constructor
    · rw [createLoop_succ]
      have : iterStop env name k = false := by
        simp [iterStop, hcreds, hcf k]
      rw [this]
      simp
    · by_cases hf : iterFound env name k <;>
        simp [iterEvents, hf, hcreds, hcf k]
  · intro hnever fuel
    induction fuel with
    | zero => intro k tr; rfl
    | succ fuel ih =>
      intro k tr
      rw [createLoop_succ]
      have : iterStop env name k = false := by
        simp [iterStop, hnever k, hcf k]
      rw [this]
      simp only [Bool.false_eq_true, if_false]
      exact ih (k + 1) (tr ++ iterEvents env name k)
  · intro fuel
    induction fuel with
    | zero => intro k tr h; simp [createLoop] at h
    | succ fuel ih =>
      intro k tr h
      rw [createLoop_succ] at h
      by_cases hs : iterStop env name k
      · rw [if_pos hs] at h
        simp only at h
        by_cases hc : env.credsAfter k
        · exact ⟨k, hc⟩
        · exfalso
          have : iterExit env name k = CreateExit.createError := by
            simp only [iterStop, hc, Bool.or_false] at hs
            simp [iterExit, hs]
          rw [this] at h
          exact CreateExit.noConfusion h
      · rw [if_neg hs] at h
        exact ih (k + 1) (tr ++ iterEvents env name k) h

/-- An environment whose cluster never appears and whose credentials file
never exists (and whose create invocations return). -/
def cenvNever : CreateEnv := ⟨fun _ => [], fun _ => false, fun _ => false⟩

theorem create_repair_loop_unbounded_witness :
    (createLoop cenvNever "foo" 3 0 []).2 = CreateExit.fuelOut ∧
    CEvent.deleteCmd ∈ iterEvents cenvNever "foo" 0 := by
  have h := create_repair_loop_unbounded cenvNever "foo" (fun k => rfl)
  exact ⟨h.2.1 (fun k => rfl) 3 0 [], (h.1 0 0 [] rfl).2⟩

/-! ## C7 — reuse and idempotence of `create` -/

/-- C7: (1) whenever the cluster's name appears as a line of the
`get clusters` output of iteration `k`, that iteration issues no
create-cluster command; (2) consequently, for a first call that finds the
name absent, creates it, and then sees the credentials file (one
iteration), and a second call that finds the name present with the
credentials file in place, the external create command is issued exactly
once across the two calls and the second call terminates normally — even
if a (duplicate) create invocation would have failed. -/
theorem create_reuse_idempotent :
    (∀ (env : CreateEnv) (name : String) (k : Nat),
      iterFound env name k = true →
      CEvent.createCmd ∉ iterEvents env name k) ∧
    (∀ (env1 env2 : CreateEnv) (name : String) (fuel1 fuel2 : Nat),
      iterFound env1 name 0 = false →
      env1.createFails 0 = false →
      env1.credsAfter 0 = true →
      iterFound env2 name 0 = true →
      env2.credsAfter 0 = true →
      createRun env1 name (fuel1 + 1) =
        ([CEvent.getClusters, CEvent.createCmd], CreateExit.done) ∧
      createRun env2 name (fuel2 + 1) =
        ([CEvent.getClusters], CreateExit.done) ∧
      ((createRun env1 name (fuel1 + 1)).1 ++
          (createRun env2 name (fuel2 + 1)).1).count CEvent.createCmd = 1) := by
  constructor
  · intro env name k hf
    cases hc : env.credsAfter k <;> simp [iterEvents, hf, hc]
  · intro env1 env2 name fuel1 fuel2 h1 h2 h3 h4 h5
    have hr1 : createRun env1 name (fuel1 + 1) =
        ([CEvent.getClusters, CEvent.createCmd], CreateExit.done) := by
      rw [createRun, createLoop_succ]
      have hs : iterStop env1 name 0 = true := by simp [iterStop, h3]
      rw [hs]
      simp [iterEvents, iterExit, h1, h2, h3]
    have hr2 : createRun env2 name (fuel2 + 1) =
        ([CEvent.getClusters], CreateExit.done) := by
      rw [createRun, createLoop_succ]
      have hs : iterStop env2 name 0 = true := by simp [iterStop, h5]
      rw [hs]
      simp [iterEvents, iterExit, h4, h5]
    refine ⟨hr1, hr2, ?_⟩
    rw [hr1, hr2]
    decide

/-- World of the first call: no clusters, a create that succeeds, and the
credentials file present afterwards. -/
def cenvFirst : CreateEnv := ⟨fun _ => [], fun _ => true, fun _ => false⟩

/-- World of the second call: the cluster `"foo"` is listed (and a
duplicate create would fail, though none is issued). -/
def cenvSecond : CreateEnv :=
  ⟨fun _ => ["foo"], fun _ => true, fun _ => true⟩

theorem create_reuse_idempotent_witness :
    createRun cenvFirst "foo" 1 =
      ([CEvent.getClusters, CEvent.createCmd], CreateExit.done) ∧
    createRun cenvSecond "foo" 1 =
      ([CEvent.getClusters], CreateExit.done) ∧
    ((createRun cenvFirst "foo" 1).1 ++
        (createRun cenvSecond "foo" 1).1).count CEvent.createCmd = 1 := by
  exact create_reuse_idempotent.2 cenvFirst cenvSecond "foo" 0 0
    (by decide) rfl rfl (by decide) rfl

/-! ## Subprocess environments: `kubectl` vs `port_forward`
(cluster.py lines 160-165 and 184-193) -/

/-- An environment-variable map. -/
abbrev EnvMap : Type := String → Option String

/-- `env={**os.environ, "KUBECONFIG": str(self.kubeconfig_path)}`: the
caller's full environment with `KUBECONFIG` overridden. -/
def kubectl_env (osEnviron : EnvMap) (kubeconfigPath : String) : EnvMap :=
  fun k => if k = "KUBECONFIG" then some kubeconfigPath else osEnviron k

/-- `env={"KUBECONFIG": str(self.kubeconfig_path)}`: only the one
variable; the caller's environment is not propagated. -/
def port_forward_env (kubeconfigPath : String) : EnvMap :=
  fun k => if k = "KUBECONFIG" then some kubeconfigPath else none

/-- Spawning the `kubectl` subprocess: the pair (child environment,
caller's `os.environ` afterwards).  The source builds a fresh dict for
`env=` and never assigns to `os.environ`, so the caller's environment is
returned unchanged. -/
def kubectl_spawn (osEnviron : EnvMap) (kubeconfigPath : String) :
    EnvMap × EnvMap :=
  (kubectl_env osEnviron kubeconfigPath, osEnviron)

/-- Spawning the `kubectl port-forward` background process: likewise, with
the minimal child environment. -/
def port_forward_spawn (osEnviron : EnvMap) (kubeconfigPath : String) :
    EnvMap × EnvMap :=
  (port_forward_env kubeconfigPath, osEnviron)

/-! ## C10 — subprocess environment construction -/

/-- C10: the `kubectl` child sees the caller's full environment plus
`KUBECONFIG` set to the credentials path; the `port_forward` child sees
*only* `KUBECONFIG` (every other variable is absent, whatever the caller's
environment holds); and neither operation mutates the calling process's own
environment. -/
theorem subprocess_env_construction (osEnviron : EnvMap) (kc : String) :
    (kubectl_spawn osEnviron kc).1 "KUBECONFIG" = some kc ∧
    (∀ k, k ≠ "KUBECONFIG" →
      (kubectl_spawn osEnviron kc).1 k = osEnviron k) ∧
    (port_forward_spawn osEnviron kc).1 "KUBECONFIG" = some kc ∧
    (∀ k, k ≠ "KUBECONFIG" → (port_forward_spawn osEnviron kc).1 k = none) ∧
    (kubectl_spawn osEnviron kc).2 = osEnviron ∧
    (port_forward_spawn osEnviron kc).2 = osEnviron := by
  refine ⟨?_, ?_, ?_, ?_, rfl, rfl⟩
  · simp [kubectl_spawn, kubectl_env]
  · intro k hk; simp [kubectl_spawn, kubectl_env, hk]
  · simp [port_forward_spawn, port_forward_env]
  · intro k hk; simp [port_forward_spawn, port_forward_env, hk]

/-- A caller environment holding `HOME`. -/
def osEnvSample : EnvMap :=
  fun k => if k = "HOME" then some "/root" else none

theorem subprocess_env_construction_witness :
    (kubectl_spawn osEnvSample "/kc").1 "KUBECONFIG" = some "/kc" ∧
    (kubectl_spawn osEnvSample "/kc").1 "HOME" = some "/root" ∧
    (port_forward_spawn osEnvSample "/kc").1 "HOME" = none := by
  have h := subprocess_env_construction osEnvSample "/kc"
  refine ⟨h.1, ?_, ?_⟩
  · exact (h.2.1 "HOME" (by decide)).trans (by decide)
  · exact h.2.2.2.1 "HOME" (by decide)

end PytestKind
